import Mathlib

set_option linter.unusedVariables false

/-!
Shallow embedding of `pkg/cloud/aws/actuators/machine/actuator.go` from
`sfzylad/cluster-api-provider-aws`.

External collaborators (the EC2 service, the ELB service, the resource-store
client, the kube-config deployer and the token issuer) are modelled as an
`Env` structure of response functions.  Each lifecycle verb of the actuator is
embedded as a pure function from an `Env` and its arguments to a result, the
machine status committed by `scope.Close()` (the Go `defer` runs on every exit
path, including panic unwinding), and a log of the external calls issued.
A Go nil-pointer dereference is modelled as the explicit `RunResult.crash`
outcome.
-/

/-- Go `error` values, modelled by their message. -/
abbrev GoError := String

/-- `v1alpha1.InstanceState`: the EC2 instance lifecycle states. -/
inductive InstanceState where
  | pending
  | running
  | shuttingDown
  | stopping
  | stopped
  | terminated
deriving DecidableEq, Repr

/-- `string(i.State)`: the string form of an instance state. -/
def InstanceState.toStr : InstanceState → String
  | .pending => "pending"
  | .running => "running"
  | .shuttingDown => "shutting-down"
  | .stopping => "stopping"
  | .stopped => "stopped"
  | .terminated => "terminated"

/-- `v1alpha1.Instance`: the live cloud resource. -/
structure Instance where
  id : String
  state : InstanceState
  securityGroupIDs : List String
deriving DecidableEq, Repr

/-- `clusterv1.MachineVersionInfo` (the fields the actuator reads). -/
structure MachineVersions where
  controlPlane : String
deriving DecidableEq, Repr

/-- `clusterv1.MachineSpec` (the fields the actuator reads). -/
structure MachineSpec where
  versions : MachineVersions
deriving DecidableEq, Repr

/-- `clusterv1.Machine` (the fields the actuator reads or writes). -/
structure Machine where
  name : String
  ns : String
  labels : List (String × String)
  annotations : List (String × String)
  spec : MachineSpec
deriving DecidableEq, Repr

/-- Go map indexing `m.ObjectMeta.Labels[k]`: the zero value `""` when the
key is absent. -/
def getLabel (m : Machine) (k : String) : String :=
  (m.labels.lookup k).getD ""

/-- `clusterv1.Cluster` (the fields the actuator reads). -/
structure Cluster where
  name : String
deriving DecidableEq, Repr

/-- `v1alpha1.AWSMachineProviderStatus` as surfaced by the machine scope:
`InstanceID` and `InstanceState` are pointers, hence `Option`. -/
structure MachineStatus where
  instanceID : Option String
  instanceState : Option String
deriving DecidableEq, Repr

/-- The machine provider config fields the actuator reads. -/
structure MachineConfig where
  additionalSecurityGroups : List String
  additionalTags : List (String × String)
deriving DecidableEq, Repr

/-- The data carried by a successfully constructed `actuators.MachineScope`. -/
structure ScopeData where
  machineStatus : MachineStatus
  machineConfig : MachineConfig
deriving DecidableEq, Repr

/-- A provisioning error from `ec2svc.CreateOrGetMachine`;
`failedDependency` records whether `awserrors.IsFailedDependency` holds of
its cause. -/
structure ProvisionError where
  failedDependency : Bool
  msg : String
deriving DecidableEq, Repr

/-- One external call issued by a verb, for the effect log. -/
inductive Call where
  | getIP
  | listMachines
  | machineExists (m : Machine)
  | getKubeConfig
  | buildClientConfig
  | newCoreClient
  | newBootstrap (ttl : Nat)
  | createOrGet
  | instanceIfExists (id : String)
  | terminate (id : String)
  | registerELB (id : String)
  | ensureSecurityGroups
  | ensureTags
  | scopeClose
deriving DecidableEq, Repr

/-- The outcome of a verb returning a Go `error`:
success, a terminal error, the distinguished
`controllerError.RequeueAfterError`, or a runtime panic
(nil-pointer dereference). -/
inductive RunResult where
  | ok
  | fail (e : GoError)
  | requeueAfter (d : Nat)
  | crash (msg : String)
deriving DecidableEq, Repr

/-- Whether a `RunResult` is a panic. -/
def RunResult.isCrash : RunResult → Bool
  | .crash _ => true
  | _ => false

/-- Go `time.Minute` in nanoseconds. -/
def timeMinute : Nat := 60 * 1000000000

/-- The external collaborators, as response functions. -/
structure Env where
  /-- `actuators.NewMachineScope` for a given machine. -/
  machineScope : Machine → Except GoError ScopeData
  /-- `a.GetIP(cluster, nil)`. -/
  getIP : Except GoError String
  /-- `scope.MachineClient.List(v1.ListOptions\x7b\x7d)`. -/
  listMachines : Except GoError (List Machine)
  /-- `ec2svc.MachineExists` on a candidate machine scope. -/
  machineExists : Machine → Except GoError Bool
  /-- `a.GetKubeConfig(cluster, nil)`. -/
  getKubeConfig : Except GoError String
  /-- `clientcmd.BuildConfigFromKubeconfigGetter(controlPlaneURL, ...)`. -/
  buildClientConfig : String → String → Except GoError Unit
  /-- `corev1.NewForConfig(clientConfig)`. -/
  newCoreClient : Except GoError Unit
  /-- `tokens.NewBootstrap(coreClient, ttl)`. -/
  newBootstrapToken : Nat → Except GoError String
  /-- `ec2svc.CreateOrGetMachine(scope, bootstrapToken, kubeConfig)`. -/
  createOrGetMachine : String → String → Except ProvisionError Instance
  /-- `ec2svc.InstanceIfExists(id)`: instance-or-absent, never errors on
  not-found. -/
  instanceIfExists : String → Except GoError (Option Instance)
  /-- `ec2svc.TerminateInstance(id)`. -/
  terminateInstance : String → Except GoError Unit
  /-- `elbsvc.RegisterInstanceWithAPIServerELB(id)`. -/
  registerELB : String → Except GoError Unit
  /-- `a.ensureSecurityGroups(ec2svc, machine, id, additional, live)`. -/
  ensureSecurityGroups : List String → List String → Except GoError Bool
  /-- `a.ensureTags(ec2svc, machine, id, additionalTags)`. -/
  ensureTags : List (String × String) → Except GoError Bool

/-- Result of a verb returning only a Go `error`, together with the status
committed by `scope.Close()` (`none` when the scope was never constructed)
and the log of external calls. -/
structure VerbOut where
  result : RunResult
  committed : Option MachineStatus
  log : List Call
deriving DecidableEq, Repr

/-- Result of `Exists`, which returns `(bool, error)`. -/
structure ExistsOut where
  found : Bool
  errOut : Option GoError
  committed : Option MachineStatus
  log : List Call
deriving DecidableEq, Repr

/-- Result of `Create`: also carries the machine annotations as mutated. -/
structure CreateOut where
  result : RunResult
  committed : Option MachineStatus
  machineAnnotations : List (String × String)
  log : List Call
deriving DecidableEq, Repr

/-- `getControlPlaneMachines`: the machines whose
`Spec.Versions.ControlPlane` is non-empty (`DeepCopy` is the identity in a
pure model). -/
def Actuator.getControlPlaneMachines (machineList : List Machine) : List Machine :=
  match machineList with
  | [] => []
  | m :: rest =>
    if m.spec.versions.controlPlane ≠ "" then
      m :: Actuator.getControlPlaneMachines rest
    else
      Actuator.getControlPlaneMachines rest

/-- `machinesEqual`: equality as name and namespace only. -/
def machinesEqual (m1 m2 : Machine) : Bool :=
  m1.name == m2.name && m1.ns == m2.ns

/-- The `case "controlplane"` loop body of `isNodeJoin`: walk the candidate
list, constructing a machine scope and querying `MachineExists` for each,
stopping at the first confirmed existence or the first error. -/
def Actuator.isNodeJoinLoop (env : Env) (cms : List Machine) :
    Except GoError Bool × List Call :=
  match cms with
  | [] => (.ok false, [])
  | cm :: rest =>
    match env.machineScope cm with
    | .error e =>
      (.error ("failed to create machine scope for machine " ++ cm.name ++ ": " ++ e), [])
    | .ok _ =>
      match env.machineExists cm with
      | .error e =>
        (.error ("failed to verify existence of machine " ++ cm.name ++ ": " ++ e),
          [Call.machineExists cm])
      | .ok true => (.ok true, [Call.machineExists cm])
      | .ok false =>
        let r := Actuator.isNodeJoinLoop env rest
        (r.1, Call.machineExists cm :: r.2)

/-- `isNodeJoin`: switch on the machine label `set`. -/
def Actuator.isNodeJoin (env : Env) (controlPlaneMachines : List Machine)
    (newMachine : Machine) : Except GoError Bool × List Call :=
  if getLabel newMachine "set" = "node" then
    (.ok true, [])
  else if getLabel newMachine "set" = "controlplane" then
    Actuator.isNodeJoinLoop env controlPlaneMachines
  else
    (.error ("Unknown value " ++ getLabel newMachine "set" ++ " for label set on machine " ++
      newMachine.name ++ ", skipping machine creation"), [])

/-- `getNodeJoinToken`: kube config, client config, core client, then a
bootstrap token with a 10-minute TTL. -/
def Actuator.getNodeJoinToken (env : Env) (cluster : Cluster)
    (controlPlaneURL : String) : Except GoError String × List Call :=
  match env.getKubeConfig with
  | .error e =>
    (.error ("failed to retrieve kubeconfig for cluster " ++ cluster.name ++ ": " ++ e),
      [Call.getKubeConfig])
  | .ok kubeConfig =>
    match env.buildClientConfig controlPlaneURL kubeConfig with
    | .error e =>
      (.error ("failed to get client config for cluster at " ++ controlPlaneURL ++ ": " ++ e),
        [Call.getKubeConfig, Call.buildClientConfig])
    | .ok _ =>
      match env.newCoreClient with
      | .error e =>
        (.error ("failed to initialize new corev1 client: " ++ e),
          [Call.getKubeConfig, Call.buildClientConfig, Call.newCoreClient])
      | .ok _ =>
        match env.newBootstrapToken (10 * timeMinute) with
        | .error e =>
          (.error ("failed to create new bootstrap token: " ++ e),
            [Call.getKubeConfig, Call.buildClientConfig, Call.newCoreClient,
              Call.newBootstrap (10 * timeMinute)])
        | .ok bootstrapToken =>
          (.ok bootstrapToken,
            [Call.getKubeConfig, Call.buildClientConfig, Call.newCoreClient,
              Call.newBootstrap (10 * timeMinute)])

/-- `reconcileLBAttachment`: register with the API-server ELB only when the
machine label `set` is `controlplane`. -/
def Actuator.reconcileLBAttachment (env : Env) (m : Machine) (i : Instance) :
    Except GoError Unit × List Call :=
  if getLabel m "set" = "controlplane" then
    match env.registerELB i.id with
    | .error e =>
      (.error ("could not register control plane instance " ++ i.id ++
        " with load balancer: " ++ e), [Call.registerELB i.id])
    | .ok _ => (.ok (), [Call.registerELB i.id])
  else
    (.ok (), [])

/-- Assoc-list update, modelling `machine.Annotations[k] = v`. -/
def insertKV (l : List (String × String)) (k v : String) : List (String × String) :=
  (l.filter (fun p => p.1 ≠ k)) ++ [(k, v)]

/-- The body of `Create` between scope construction and the deferred
`scope.Close()`.  Returns the result, the machine status as mutated, the
machine annotations as mutated, and the call log. -/
def Actuator.createBody (env : Env) (cluster : Cluster) (machine : Machine)
    (scope : ScopeData) :
    RunResult × MachineStatus × List (String × String) × List Call :=
  match env.getIP with
  | .error e =>
    (.fail ("failed to retrieve controlplane url during machine creation: " ++ e),
      scope.machineStatus, machine.annotations, [Call.getIP])
  | .ok controlPlaneURL =>
    match env.listMachines with
    | .error e =>
      (.fail ("failed to retrieve machines in cluster " ++ cluster.name ++ ": " ++ e),
        scope.machineStatus, machine.annotations, [Call.getIP, Call.listMachines])
    | .ok clusterMachines =>
      let controlPlaneMachines := Actuator.getControlPlaneMachines clusterMachines
      let join := Actuator.isNodeJoin env controlPlaneMachines machine
      let logA := Call.getIP :: Call.listMachines :: join.2
      match join.1 with
      | .error e =>
        (.fail ("failed to determine whether machine " ++ machine.name ++
          " should join cluster " ++ cluster.name ++ ": " ++ e),
          scope.machineStatus, machine.annotations, logA)
      | .ok nodeJoin =>
        let tok :=
          if nodeJoin then Actuator.getNodeJoinToken env cluster controlPlaneURL
          else (.ok "", [])
        let logB := logA ++ tok.2
        match tok.1 with
        | .error e =>
          (.fail ("failed to obtain token for node " ++ machine.name ++
            " to join cluster " ++ cluster.name ++ ": " ++ e),
            scope.machineStatus, machine.annotations, logB)
        | .ok bootstrapToken =>
          match env.getKubeConfig with
          | .error e =>
            (.fail ("failed to retrieve kubeconfig while creating machine " ++
              machine.name ++ ": " ++ e),
              scope.machineStatus, machine.annotations, logB ++ [Call.getKubeConfig])
          | .ok kubeConfig =>
            let logC := logB ++ [Call.getKubeConfig, Call.createOrGet]
            match env.createOrGetMachine bootstrapToken kubeConfig with
            | .error pe =>
              if pe.failedDependency then
                (.requeueAfter timeMinute, scope.machineStatus, machine.annotations, logC)
              else
                (.fail ("failed to create or get machine: " ++ pe.msg),
                  scope.machineStatus, machine.annotations, logC)
            | .ok i =>
              let status : MachineStatus :=
                { instanceID := some i.id, instanceState := some i.state.toStr }
              let anns := insertKV machine.annotations "cluster-api-provider-aws" "true"
              let lb := Actuator.reconcileLBAttachment env machine i
              let logD := logC ++ lb.2
              match lb.1 with
              | .error e =>
                (.fail ("failed to reconcile LB attachment: " ++ e), status, anns, logD)
              | .ok _ => (.ok, status, anns, logD)

/-- `Create`: construct the scope, defer `scope.Close()`, run the body. -/
def Actuator.Create (env : Env) (cluster : Cluster) (machine : Machine) : CreateOut :=
  match env.machineScope machine with
  | .error e =>
    { result := .fail ("failed to create scope: " ++ e), committed := none,
      machineAnnotations := machine.annotations, log := [] }
  | .ok scope =>
    let r := Actuator.createBody env cluster machine scope
    { result := r.1, committed := some r.2.1, machineAnnotations := r.2.2.1,
      log := r.2.2.2 ++ [Call.scopeClose] }

/-- The body of `Delete` between scope construction and the deferred
`scope.Close()`.  `*scope.MachineStatus.InstanceID` is dereferenced with no
nil check, so a missing instance ID is a panic. -/
def Actuator.deleteBody (env : Env) (scope : ScopeData) :
    RunResult × List Call :=
  match scope.machineStatus.instanceID with
  | none => (.crash "nil pointer dereference: MachineStatus.InstanceID", [])
  | some id =>
    match env.instanceIfExists id with
    | .error e => (.fail ("failed to get instance: " ++ e), [Call.instanceIfExists id])
    | .ok none =>
      -- The machine has not been created yet
      (.ok, [Call.instanceIfExists id])
    | .ok (some inst) =>
      match inst.state with
      | .shuttingDown | .terminated => (.ok, [Call.instanceIfExists id])
      | _ =>
        match env.terminateInstance id with
        | .error e =>
          (.fail ("failed to terminate instance: " ++ e),
            [Call.instanceIfExists id, Call.terminate id])
        | .ok _ => (.ok, [Call.instanceIfExists id, Call.terminate id])

/-- `Delete`: construct the scope, defer `scope.Close()`, run the body.
The deferred close also runs during panic unwinding. -/
def Actuator.Delete (env : Env) (cluster : Cluster) (machine : Machine) : VerbOut :=
  match env.machineScope machine with
  | .error e =>
    { result := .fail ("failed to create scope: " ++ e), committed := none, log := [] }
  | .ok scope =>
    let r := Actuator.deleteBody env scope
    { result := r.1, committed := some scope.machineStatus,
      log := r.2 ++ [Call.scopeClose] }

/-- The body of `Update`: `*scope.MachineStatus.InstanceID` and
`instanceDescription.SecurityGroupIDs` are both dereferenced with no nil
check. -/
def Actuator.updateBody (env : Env) (scope : ScopeData) :
    RunResult × List Call :=
  match scope.machineStatus.instanceID with
  | none => (.crash "nil pointer dereference: MachineStatus.InstanceID", [])
  | some id =>
    match env.instanceIfExists id with
    | .error e => (.fail ("failed to get instance: " ++ e), [Call.instanceIfExists id])
    | .ok none =>
      (.crash "nil pointer dereference: instanceDescription",
        [Call.instanceIfExists id])
    | .ok (some inst) =>
      match env.ensureSecurityGroups scope.machineConfig.additionalSecurityGroups
          inst.securityGroupIDs with
      | .error e =>
        (.fail ("failed to apply security groups: " ++ e),
          [Call.instanceIfExists id, Call.ensureSecurityGroups])
      | .ok _ =>
        match env.ensureTags scope.machineConfig.additionalTags with
        | .error e =>
          (.fail ("failed to ensure tags: " ++ e),
            [Call.instanceIfExists id, Call.ensureSecurityGroups, Call.ensureTags])
        | .ok _ =>
          (.ok, [Call.instanceIfExists id, Call.ensureSecurityGroups, Call.ensureTags])

/-- `Update`: construct the scope, defer `scope.Close()`, run the body. -/
def Actuator.Update (env : Env) (cluster : Cluster) (machine : Machine) : VerbOut :=
  match env.machineScope machine with
  | .error e =>
    { result := .fail ("failed to create scope: " ++ e), committed := none, log := [] }
  | .ok scope =>
    let r := Actuator.updateBody env scope
    { result := r.1, committed := some scope.machineStatus,
      log := r.2 ++ [Call.scopeClose] }

/-- The body of `Exists`: nil instance ID and absent instance both yield
`(false, nil)`; only states running and pending fall through to the LB
attachment and a `true` result. -/
def Actuator.existsBody (env : Env) (machine : Machine) (scope : ScopeData) :
    (Bool × Option GoError) × List Call :=
  match scope.machineStatus.instanceID with
  | none => ((false, none), [])
  | some id =>
    match env.instanceIfExists id with
    | .error e =>
      ((false, some ("failed to retrieve instance: " ++ e)), [Call.instanceIfExists id])
    | .ok none => ((false, none), [Call.instanceIfExists id])
    | .ok (some inst) =>
      match inst.state with
      | .running | .pending =>
        let lb := Actuator.reconcileLBAttachment env machine inst
        match lb.1 with
        | .error e => ((true, some e), Call.instanceIfExists id :: lb.2)
        | .ok _ => ((true, none), Call.instanceIfExists id :: lb.2)
      | _ => ((false, none), [Call.instanceIfExists id])

/-- `Exists`: construct the scope, defer `scope.Close()`, run the body. -/
def Actuator.Exists (env : Env) (cluster : Cluster) (machine : Machine) : ExistsOut :=
  match env.machineScope machine with
  | .error e =>
    { found := false, errOut := some ("failed to create scope: " ++ e),
      committed := none, log := [] }
  | .ok scope =>
    let r := Actuator.existsBody env machine scope
    { found := r.1.1, errOut := r.1.2, committed := some scope.machineStatus,
      log := r.2 ++ [Call.scopeClose] }

/-! ### Concrete fixtures used by witnesses and counterexample evaluations -/

/-- A demo cluster. -/
def clDemo : Cluster := ⟨"test-cluster"⟩

/-- A worker machine, label `set: node`. -/
def mNode : Machine :=
  { name := "node-1", ns := "default", labels := [("set", "node")],
    annotations := [], spec := ⟨⟨""⟩⟩ }

/-- A control-plane machine, label `set: controlplane`, with a control-plane
version set. -/
def mCP : Machine :=
  { name := "cp-1", ns := "default", labels := [("set", "controlplane")],
    annotations := [], spec := ⟨⟨"v1.13.0"⟩⟩ }

/-- A machine labelled `controlplane` whose control-plane version field is
empty. -/
def mCPNoVersion : Machine :=
  { name := "cp-noversion", ns := "default", labels := [("set", "controlplane")],
    annotations := [], spec := ⟨⟨""⟩⟩ }

/-- Scope data with no recorded instance ID. -/
def scopeNilID : ScopeData := ⟨⟨none, none⟩, ⟨[], []⟩⟩

/-- Scope data recording instance `i-abc`. -/
def scopeWithID : ScopeData := ⟨⟨some "i-abc", some "running"⟩, ⟨[], []⟩⟩

/-- A demo running instance. -/
def instRunning : Instance := ⟨"i-abc", .running, ["sg-1"]⟩

/-- An environment where every collaborator succeeds. -/
def envBase : Env :=
  { machineScope := fun _ => .ok scopeWithID,
    getIP := .ok "https://cp.test:6443",
    listMachines := .ok [],
    machineExists := fun _ => .ok false,
    getKubeConfig := .ok "kubeconfig-data",
    buildClientConfig := fun _ _ => .ok (),
    newCoreClient := .ok (),
    newBootstrapToken := fun _ => .ok "token-data",
    createOrGetMachine := fun _ _ => .ok instRunning,
    instanceIfExists := fun _ => .ok (some instRunning),
    terminateInstance := fun _ => .ok (),
    registerELB := fun _ => .ok (),
    ensureSecurityGroups := fun _ _ => .ok true,
    ensureTags := fun _ => .ok true }

/-- `envBase` but the machine scope carries no instance ID. -/
def envNilID : Env := { envBase with machineScope := fun _ => .ok scopeNilID }

/-- `envBase` but the instance lookup finds no live instance. -/
def envGone : Env := { envBase with instanceIfExists := fun _ => .ok none }

/-- `envBase` but ELB registration fails. -/
def envELBDown : Env := { envBase with registerELB := fun _ => .error "elb down" }

/-- `envBase` but provisioning fails with the dependency-not-ready
condition. -/
def envDep : Env :=
  { envBase with createOrGetMachine := fun _ _ => .error ⟨true, "network not ready"⟩ }

/-- Whether `MachineExists` affirms existence for a candidate machine. -/
def checkTrue (env : Env) (cm : Machine) : Bool :=
  match env.machineExists cm with
  | .ok b => b
  | .error _ => false

/-! ### Helper lemmas about the classifier loop and the call logs -/

theorem isNodeJoinLoop_all_ok (env : Env) (cms : List Machine)
    (h : ∀ cm ∈ cms, (∃ s, env.machineScope cm = .ok s) ∧
      ∃ b, env.machineExists cm = .ok b) :
    (Actuator.isNodeJoinLoop env cms).1 = .ok (cms.any (checkTrue env)) := by
  induction cms with
  | nil => simp [Actuator.isNodeJoinLoop]
  | cons cm rest ih =>
    obtain ⟨⟨s, hs⟩, b, hb⟩ := h cm (by simp)
    have hrest := ih (fun x hx => h x (by simp [hx]))
    cases b with
    | true => simp [Actuator.isNodeJoinLoop, hs, hb, checkTrue]
    | false => simp [Actuator.isNodeJoinLoop, hs, hb, checkTrue, hrest]

theorem isNodeJoinLoop_stop (env : Env) (l1 : List Machine) (cm : Machine)
    (l2 : List Machine) (s : ScopeData)
    (h1 : ∀ m1 ∈ l1, (∃ sc, env.machineScope m1 = .ok sc) ∧
      env.machineExists m1 = .ok false)
    (h2 : env.machineScope cm = .ok s) (h3 : env.machineExists cm = .ok true) :
    Actuator.isNodeJoinLoop env (l1 ++ cm :: l2) =
      (.ok true, (l1 ++ [cm]).map Call.machineExists) := by
  induction l1 with
  | nil => simp [Actuator.isNodeJoinLoop, h2, h3]
  | cons x xs ih =>
    obtain ⟨⟨sc, hsc⟩, hx⟩ := h1 x (by simp)
    have hrest := ih (fun y hy => h1 y (by simp [hy]))
    simp [Actuator.isNodeJoinLoop, hsc, hx, hrest]

theorem isNodeJoinLoop_first_err (env : Env) (l1 : List Machine) (cm : Machine)
    (l2 : List Machine)
    (h1 : ∀ m1 ∈ l1, (∃ sc, env.machineScope m1 = .ok sc) ∧
      env.machineExists m1 = .ok false)
    (h2 : (∃ e, env.machineScope cm = .error e) ∨
      ((∃ sc, env.machineScope cm = .ok sc) ∧ ∃ e, env.machineExists cm = .error e)) :
    ∃ msg, (Actuator.isNodeJoinLoop env (l1 ++ cm :: l2)).1 = .error msg := by
  induction l1 with
  | nil =>
    rcases h2 with ⟨e, he⟩ | ⟨⟨sc, hsc⟩, e, he⟩
    · refine ⟨"failed to create machine scope for machine " ++ cm.name ++ ": " ++ e, ?_⟩
      simp [Actuator.isNodeJoinLoop, he]
    · refine ⟨"failed to verify existence of machine " ++ cm.name ++ ": " ++ e, ?_⟩
      simp [Actuator.isNodeJoinLoop, hsc, he]
  | cons x xs ih =>
    obtain ⟨⟨sc, hsc⟩, hx⟩ := h1 x (by simp)
    obtain ⟨msg, hmsg⟩ := ih (fun y hy => h1 y (by simp [hy]))
    exact ⟨msg, by simp [Actuator.isNodeJoinLoop, hsc, hx, hmsg]⟩

theorem isNodeJoinLoop_log_mem (env : Env) (cms : List Machine) :
    ∀ call ∈ (Actuator.isNodeJoinLoop env cms).2,
      ∃ cm ∈ cms, call = Call.machineExists cm := by
  induction cms with
  | nil => simp [Actuator.isNodeJoinLoop]
  | cons cm rest ih =>
    intro call hcall
    cases hsc : env.machineScope cm with
    | error e => simp [Actuator.isNodeJoinLoop, hsc] at hcall
    | ok s =>
      cases hme : env.machineExists cm with
      | error e =>
        simp [Actuator.isNodeJoinLoop, hsc, hme] at hcall
        exact ⟨cm, by simp, hcall⟩
      | ok b =>
        cases b with
        | true =>
          simp [Actuator.isNodeJoinLoop, hsc, hme] at hcall
          exact ⟨cm, by simp, hcall⟩
        | false =>
          simp [Actuator.isNodeJoinLoop, hsc, hme] at hcall
          rcases hcall with h | h
          · exact ⟨cm, by simp, h⟩
          · obtain ⟨cm2, hcm2, hc⟩ := ih call h
            exact ⟨cm2, by simp [hcm2], hc⟩

theorem isNodeJoin_log_mem (env : Env) (cps : List Machine) (m : Machine) :
    ∀ call ∈ (Actuator.isNodeJoin env cps m).2,
      ∃ cm ∈ cps, call = Call.machineExists cm := by
  intro call hcall
  by_cases h1 : getLabel m "set" = "node"
  · simp [Actuator.isNodeJoin, h1] at hcall
  · by_cases h2 : getLabel m "set" = "controlplane"
    · rw [Actuator.isNodeJoin] at hcall
      simp only [h1, h2, if_true, if_false] at hcall
      exact isNodeJoinLoop_log_mem env cps call hcall
    · simp [Actuator.isNodeJoin, h1, h2] at hcall

theorem getControlPlaneMachines_eq_filter (ml : List Machine) :
    Actuator.getControlPlaneMachines ml =
      ml.filter (fun mm => mm.spec.versions.controlPlane != "") := by
  induction ml with
  | nil => simp [Actuator.getControlPlaneMachines]
  | cons mm rest ih =>
    by_cases hc : mm.spec.versions.controlPlane = "" <;>
      simp [Actuator.getControlPlaneMachines, hc, ih, List.filter_cons]

theorem mem_getControlPlaneMachines (ml : List Machine) (m : Machine)
    (h : m ∈ Actuator.getControlPlaneMachines ml) :
    m ∈ ml ∧ m.spec.versions.controlPlane ≠ "" := by
  rw [getControlPlaneMachines_eq_filter] at h
  have h2 := List.mem_filter.mp h
  exact ⟨h2.1, by simpa using h2.2⟩

theorem getNodeJoinToken_log_shape (env : Env) (c : Cluster) (url : String) :
    ∀ call ∈ (Actuator.getNodeJoinToken env c url).2,
      call = Call.getKubeConfig ∨ call = Call.buildClientConfig ∨
      call = Call.newCoreClient ∨ call = Call.newBootstrap (10 * timeMinute) := by
  intro call hcall
  unfold Actuator.getNodeJoinToken at hcall
  repeat' split at hcall
  all_goals simp at hcall
  all_goals tauto

theorem getNodeJoinToken_ok_log (env : Env) (c : Cluster) (url : String)
    (t : String) (h : (Actuator.getNodeJoinToken env c url).1 = .ok t) :
    (Actuator.getNodeJoinToken env c url).2 =
      [Call.getKubeConfig, Call.buildClientConfig, Call.newCoreClient,
        Call.newBootstrap (10 * timeMinute)] := by
  unfold Actuator.getNodeJoinToken at h ⊢
  repeat' split at h
  all_goals simp_all

theorem getNodeJoinToken_ok_kubeConfig (env : Env) (c : Cluster) (url : String)
    (t : String) (h : (Actuator.getNodeJoinToken env c url).1 = .ok t) :
    ∃ kc, env.getKubeConfig = .ok kc := by
  unfold Actuator.getNodeJoinToken at h
  cases hk : env.getKubeConfig with
  | error e => rw [hk] at h; simp at h
  | ok kc => exact ⟨kc, rfl⟩

theorem reconcileLBAttachment_log_shape (env : Env) (m : Machine) (i : Instance) :
    ∀ call ∈ (Actuator.reconcileLBAttachment env m i).2,
      call = Call.registerELB i.id := by
  intro call hcall
  unfold Actuator.reconcileLBAttachment at hcall
  by_cases hcp : getLabel m "set" = "controlplane"
  · rw [if_pos hcp] at hcall
    cases hreg : env.registerELB i.id <;> simp [hreg] at hcall <;> exact hcall
  · rw [if_neg hcp] at hcall
    simp at hcall

theorem token_log_no_machineExists (env : Env) (c : Cluster) (url : String)
    (cm : Machine) :
    Call.machineExists cm ∉ (Actuator.getNodeJoinToken env c url).2 := by
  intro h
  rcases getNodeJoinToken_log_shape env c url _ h with h2 | h2 | h2 | h2 <;> simp at h2

theorem token_log_no_createOrGet (env : Env) (c : Cluster) (url : String) :
    Call.createOrGet ∉ (Actuator.getNodeJoinToken env c url).2 := by
  intro h
  rcases getNodeJoinToken_log_shape env c url _ h with h2 | h2 | h2 | h2 <;> simp at h2

theorem lb_log_no_machineExists (env : Env) (m : Machine) (i : Instance)
    (cm : Machine) :
    Call.machineExists cm ∉ (Actuator.reconcileLBAttachment env m i).2 := by
  intro h
  have h2 := reconcileLBAttachment_log_shape env m i _ h
  simp at h2

theorem lb_log_no_newBootstrap (env : Env) (m : Machine) (i : Instance)
    (t : Nat) :
    Call.newBootstrap t ∉ (Actuator.reconcileLBAttachment env m i).2 := by
  intro h
  have h2 := reconcileLBAttachment_log_shape env m i _ h
  simp at h2

theorem isNodeJoin_log_no_createOrGet (env : Env) (cps : List Machine)
    (m : Machine) :
    Call.createOrGet ∉ (Actuator.isNodeJoin env cps m).2 := by
  intro h
  obtain ⟨cm, _, h2⟩ := isNodeJoin_log_mem env cps m _ h
  simp at h2

theorem isNodeJoin_log_no_newBootstrap (env : Env) (cps : List Machine)
    (m : Machine) (t : Nat) :
    Call.newBootstrap t ∉ (Actuator.isNodeJoin env cps m).2 := by
  intro h
  obtain ⟨cm, _, h2⟩ := isNodeJoin_log_mem env cps m _ h
  simp at h2

/-- Reduction of `createBody` once every step up to the provisioning call is
known to succeed: the body is decided by the provisioning call and the
load-balancer attachment. -/
theorem Actuator.createBody_main (env : Env) (c : Cluster) (m : Machine)
    (scope : ScopeData) (url : String) (ml : List Machine) (b : Bool)
    (jlog : List Call) (tok : String) (tlog : List Call) (kc : String)
    (hip : env.getIP = .ok url)
    (hlm : env.listMachines = .ok ml)
    (hjoin : Actuator.isNodeJoin env (Actuator.getControlPlaneMachines ml) m =
      (.ok b, jlog))
    (htok : (if b then Actuator.getNodeJoinToken env c url else (.ok "", [])) =
      (.ok tok, tlog))
    (hkc : env.getKubeConfig = .ok kc) :
    Actuator.createBody env c m scope =
      match env.createOrGetMachine tok kc with
      | .error pe =>
        if pe.failedDependency then
          (.requeueAfter timeMinute, scope.machineStatus, m.annotations,
            (Call.getIP :: Call.listMachines :: jlog ++ tlog) ++
              [Call.getKubeConfig, Call.createOrGet])
        else
          (.fail ("failed to create or get machine: " ++ pe.msg),
            scope.machineStatus, m.annotations,
            (Call.getIP :: Call.listMachines :: jlog ++ tlog) ++
              [Call.getKubeConfig, Call.createOrGet])
      | .ok i =>
        match (Actuator.reconcileLBAttachment env m i).1 with
        | .error e =>
          (.fail ("failed to reconcile LB attachment: " ++ e),
            { instanceID := some i.id, instanceState := some i.state.toStr },
            insertKV m.annotations "cluster-api-provider-aws" "true",
            ((Call.getIP :: Call.listMachines :: jlog ++ tlog) ++
              [Call.getKubeConfig, Call.createOrGet]) ++
              (Actuator.reconcileLBAttachment env m i).2)
        | .ok u =>
          (.ok,
            { instanceID := some i.id, instanceState := some i.state.toStr },
            insertKV m.annotations "cluster-api-provider-aws" "true",
            ((Call.getIP :: Call.listMachines :: jlog ++ tlog) ++
              [Call.getKubeConfig, Call.createOrGet]) ++
              (Actuator.reconcileLBAttachment env m i).2) := by
  simp only [Actuator.createBody, hip, hlm, hjoin, htok, hkc]

/-! ### Claims -/

/-- C1: the spec says Delete on a machine with no recorded instance ID
succeeds as a no-op.  The code dereferences `*scope.MachineStatus.InstanceID`
with no nil check, so it panics instead; the other half of the claim (an
instance absent from the backend is treated as already deleted, with no
terminate call) does hold. -/
theorem claim_C1_delete_nil_id :
    ((Actuator.Delete envNilID clDemo mNode).result =
        .crash "nil pointer dereference: MachineStatus.InstanceID" ∧
      (Actuator.Delete envNilID clDemo mNode).log = [Call.scopeClose]) ∧
    ((Actuator.Delete envGone clDemo mNode).result = .ok ∧
      (Actuator.Delete envGone clDemo mNode).log =
        [Call.instanceIfExists "i-abc", Call.scopeClose]) :=
  ⟨⟨rfl, rfl⟩, rfl, rfl⟩

/-- C2: Exists maps machine states as the spec says: no recorded ID gives
`(false, nil)` with no backend lookup; a lookup finding no live instance
gives `(false, nil)`; live state running or pending gives `true`; any other
live state gives `(false, nil)`. -/
theorem claim_C2_exists_state_mapping (env : Env) (c : Cluster) (m : Machine)
    (scope : ScopeData) (h : env.machineScope m = .ok scope) :
    (scope.machineStatus.instanceID = none →
      (Actuator.Exists env c m).found = false ∧
      (Actuator.Exists env c m).errOut = none ∧
      (Actuator.Exists env c m).log = [Call.scopeClose]) ∧
    (∀ id, scope.machineStatus.instanceID = some id →
      (env.instanceIfExists id = .ok none →
        (Actuator.Exists env c m).found = false ∧
        (Actuator.Exists env c m).errOut = none) ∧
      (∀ inst, env.instanceIfExists id = .ok (some inst) →
        ((inst.state = .running ∨ inst.state = .pending) →
          (Actuator.Exists env c m).found = true) ∧
        (inst.state ≠ .running → inst.state ≠ .pending →
          (Actuator.Exists env c m).found = false ∧
          (Actuator.Exists env c m).errOut = none))) := by
  constructor
  · intro hnone
    refine ⟨?_, ?_, ?_⟩ <;>
      simp [Actuator.Exists, h, Actuator.existsBody, hnone]
  · intro id hid
    constructor
    · intro hgone
      constructor <;> simp [Actuator.Exists, h, Actuator.existsBody, hid, hgone]
    · intro inst hinst
      constructor
      · rintro (hs | hs) <;>
          cases hlb : (Actuator.reconcileLBAttachment env m inst).1 <;>
            simp [Actuator.Exists, h, Actuator.existsBody, hid, hinst, hs, hlb]
      · intro hnr hnp
        cases hst : inst.state with
        | running => exact absurd hst hnr
        | pending => exact absurd hst hnp
        | shuttingDown =>
          constructor <;> simp [Actuator.Exists, h, Actuator.existsBody, hid, hinst, hst]
        | stopping =>
          constructor <;> simp [Actuator.Exists, h, Actuator.existsBody, hid, hinst, hst]
        | stopped =>
          constructor <;> simp [Actuator.Exists, h, Actuator.existsBody, hid, hinst, hst]
        | terminated =>
          constructor <;> simp [Actuator.Exists, h, Actuator.existsBody, hid, hinst, hst]

/-- C2 witness: the no-instance-ID case at a concrete input. -/
theorem claim_C2_witness :
    (Actuator.Exists envNilID clDemo mNode).found = false ∧
    (Actuator.Exists envNilID clDemo mNode).errOut = none :=
  have h := claim_C2_exists_state_mapping envNilID clDemo mNode scopeNilID rfl
  ⟨(h.1 rfl).1, (h.1 rfl).2.1⟩

/-- C5: when the live instance state is shutting-down or terminated, Delete
succeeds without a terminate call; for any other live state it issues exactly
one terminate request and succeeds iff that request succeeds. -/
theorem claim_C5_delete_terminate (env : Env) (c : Cluster) (m : Machine)
    (scope : ScopeData) (id : String) (inst : Instance)
    (h : env.machineScope m = .ok scope)
    (hid : scope.machineStatus.instanceID = some id)
    (hinst : env.instanceIfExists id = .ok (some inst)) :
    ((inst.state = .shuttingDown ∨ inst.state = .terminated) →
      (Actuator.Delete env c m).result = .ok ∧
      ∀ i, Call.terminate i ∉ (Actuator.Delete env c m).log) ∧
    (inst.state ≠ .shuttingDown → inst.state ≠ .terminated →
      ((Actuator.Delete env c m).log.count (Call.terminate id) = 1 ∧
       (env.terminateInstance id = .ok () →
         (Actuator.Delete env c m).result = .ok) ∧
       (∀ e, env.terminateInstance id = .error e →
         (Actuator.Delete env c m).result =
           .fail ("failed to terminate instance: " ++ e)))) := by
  constructor
  · rintro (hs | hs) <;>
      · refine ⟨?_, ?_⟩ <;>
          simp [Actuator.Delete, h, Actuator.deleteBody, hid, hinst, hs]
  · intro hns hnt
    have hred : Actuator.deleteBody env scope =
        (match env.terminateInstance id with
         | .error e =>
           (.fail ("failed to terminate instance: " ++ e),
             [Call.instanceIfExists id, Call.terminate id])
         | .ok _ => (.ok, [Call.instanceIfExists id, Call.terminate id])) := by
      cases hst : inst.state with
      | shuttingDown => exact absurd hst hns
      | terminated => exact absurd hst hnt
      | pending => simp [Actuator.deleteBody, hid, hinst, hst]
      | running => simp [Actuator.deleteBody, hid, hinst, hst]
      | stopping => simp [Actuator.deleteBody, hid, hinst, hst]
      | stopped => simp [Actuator.deleteBody, hid, hinst, hst]
    refine ⟨?_, ?_, ?_⟩
    · cases hterm : env.terminateInstance id <;>
        simp [Actuator.Delete, h, hred, hterm]
    · intro hterm
      simp [Actuator.Delete, h, hred, hterm]
    · intro e hterm
      simp [Actuator.Delete, h, hred, hterm]

/-- C5 witness: a running instance is terminated exactly once at a concrete
input, and Delete succeeds. -/
theorem claim_C5_witness :
    (Actuator.Delete envBase clDemo mNode).log.count (Call.terminate "i-abc") = 1 ∧
    (Actuator.Delete envBase clDemo mNode).result = .ok :=
  have h := claim_C5_delete_terminate envBase clDemo mNode scopeWithID "i-abc"
    instRunning rfl rfl rfl
  have h2 := h.2 (by decide) (by decide)
  ⟨h2.1, h2.2.1 rfl⟩

/-- C8: when Exists affirms existence (running or pending) and the machine is
labelled `controlplane`, load-balancer registration is attempted; a
registration failure yields `(true, error)`.  For any other label the
load-balancer step is a no-op. -/
theorem claim_C8_exists_lb (env : Env) (c : Cluster) (m : Machine)
    (scope : ScopeData) (id : String) (inst : Instance)
    (h : env.machineScope m = .ok scope)
    (hid : scope.machineStatus.instanceID = some id)
    (hinst : env.instanceIfExists id = .ok (some inst))
    (hstate : inst.state = .running ∨ inst.state = .pending) :
    (getLabel m "set" = "controlplane" →
      Call.registerELB inst.id ∈ (Actuator.Exists env c m).log ∧
      (env.registerELB inst.id = .ok () →
        (Actuator.Exists env c m).found = true ∧
        (Actuator.Exists env c m).errOut = none) ∧
      (∀ e, env.registerELB inst.id = .error e →
        (Actuator.Exists env c m).found = true ∧
        ∃ msg, (Actuator.Exists env c m).errOut = some msg)) ∧
    (getLabel m "set" ≠ "controlplane" →
      (Actuator.Exists env c m).found = true ∧
      (Actuator.Exists env c m).errOut = none ∧
      ∀ i, Call.registerELB i ∉ (Actuator.Exists env c m).log) := by
  constructor
  · intro hcp
    refine ⟨?_, ?_, ?_⟩
    · rcases hstate with hs | hs <;>
        cases hreg : env.registerELB inst.id <;>
          simp [Actuator.Exists, h, Actuator.existsBody, hid, hinst, hs,
            Actuator.reconcileLBAttachment, hcp, hreg]
    · intro hreg
      rcases hstate with hs | hs <;>
        simp [Actuator.Exists, h, Actuator.existsBody, hid, hinst, hs,
          Actuator.reconcileLBAttachment, hcp, hreg]
    · intro e hreg
      rcases hstate with hs | hs <;>
        simp [Actuator.Exists, h, Actuator.existsBody, hid, hinst, hs,
          Actuator.reconcileLBAttachment, hcp, hreg]
  · intro hncp
    refine ⟨?_, ?_, ?_⟩ <;>
      rcases hstate with hs | hs <;>
        simp [Actuator.Exists, h, Actuator.existsBody, hid, hinst, hs,
          Actuator.reconcileLBAttachment, hncp]

/-- C8 witness: a control-plane machine with a running instance and a failing
ELB registration yields `(true, error)` at a concrete input. -/
theorem claim_C8_witness :
    (Actuator.Exists { envBase with registerELB := fun _ => .error "elb down" }
        clDemo mCP).found = true ∧
    ∃ msg, (Actuator.Exists { envBase with registerELB := fun _ => .error "elb down" }
        clDemo mCP).errOut = some msg :=
  have h := claim_C8_exists_lb
    { envBase with registerELB := fun _ => .error "elb down" }
    clDemo mCP scopeWithID "i-abc" instRunning rfl rfl rfl (Or.inl rfl)
  (h.1 rfl).2.2 "elb down" rfl

/-- C9: Update dereferences the recorded instance ID and the lookup result
unconditionally: a machine with no recorded instance ID, or whose instance
no longer exists, makes Update crash with a nil dereference instead of
returning an error. -/
theorem claim_C9_update_nil_deref (env : Env) (c : Cluster) (m : Machine)
    (scope : ScopeData) (h : env.machineScope m = .ok scope) :
    (scope.machineStatus.instanceID = none →
      (Actuator.Update env c m).result.isCrash = true) ∧
    (∀ id, scope.machineStatus.instanceID = some id →
      env.instanceIfExists id = .ok none →
      (Actuator.Update env c m).result.isCrash = true) := by
  constructor
  · intro hnone
    simp [Actuator.Update, h, Actuator.updateBody, hnone, RunResult.isCrash]
  · intro id hid hgone
    simp [Actuator.Update, h, Actuator.updateBody, hid, hgone, RunResult.isCrash]

/-- C9 witness: Update crashes at a concrete input with no recorded
instance ID. -/
theorem claim_C9_witness :
    (Actuator.Update envNilID clDemo mNode).result.isCrash = true :=
  (claim_C9_update_nil_deref envNilID clDemo mNode scopeNilID rfl).1 rfl

/-- C3: a dependency-not-ready condition from the create-or-get provisioning
call makes Create return the distinguished retry-after result carrying
exactly a 1-minute backoff; every other provisioning error from that call is
a terminal error for the attempt. -/
theorem claim_C3_retry_after (env : Env) (c : Cluster) (m : Machine)
    (scope : ScopeData) (url : String) (ml : List Machine) (tok : String)
    (kc : String) (pe : ProvisionError)
    (hscope : env.machineScope m = .ok scope)
    (hip : env.getIP = .ok url)
    (hlm : env.listMachines = .ok ml)
    (hjoin : ∃ b jlog tlog,
      Actuator.isNodeJoin env (Actuator.getControlPlaneMachines ml) m =
        (.ok b, jlog) ∧
      (if b then Actuator.getNodeJoinToken env c url else (.ok "", [])) =
        (.ok tok, tlog))
    (hkc : env.getKubeConfig = .ok kc)
    (hcg : env.createOrGetMachine tok kc = .error pe) :
    (pe.failedDependency = true →
      (Actuator.Create env c m).result = .requeueAfter timeMinute ∧
      ∀ e, (Actuator.Create env c m).result ≠ .fail e) ∧
    (pe.failedDependency = false →
      (Actuator.Create env c m).result =
        .fail ("failed to create or get machine: " ++ pe.msg)) := by
  obtain ⟨b, jlog, tlog, hj, ht⟩ := hjoin
  have hmain := Actuator.createBody_main env c m scope url ml b jlog tok tlog kc
    hip hlm hj ht hkc
  constructor
  · intro hdep
    have hres : (Actuator.Create env c m).result = .requeueAfter timeMinute := by
      simp [Actuator.Create, hscope, hmain, hcg, hdep]
    exact ⟨hres, by simp [hres]⟩
  · intro hdep
    simp [Actuator.Create, hscope, hmain, hcg, hdep]

/-- C3 witness: with provisioning failing dependency-not-ready at a concrete
input, Create requeues after exactly one minute. -/
theorem claim_C3_witness :
    (Actuator.Create envDep clDemo mNode).result = .requeueAfter timeMinute :=
  ((claim_C3_retry_after envDep clDemo mNode scopeWithID "https://cp.test:6443"
    [] "token-data" "kubeconfig-data" ⟨true, "network not ready"⟩ rfl rfl rfl
    ⟨true, [],
      [Call.getKubeConfig, Call.buildClientConfig, Call.newCoreClient,
        Call.newBootstrap (10 * timeMinute)], rfl, rfl⟩
    rfl rfl).1 rfl).1

/-- C4: the node-role classifier returns `(true, nil)` for label `node`; for
label `controlplane` it returns true iff the backing instance of some
candidate exists, stopping at the first confirmed existence, and errors when a scope
construction or existence check fails during the search; any other label
yields an error, no existence checks, and the create flow aborts with no
provisioning call. -/
theorem claim_C4_node_role_classifier (env : Env) (cps : List Machine)
    (m : Machine) :
    (getLabel m "set" = "node" →
      Actuator.isNodeJoin env cps m = (.ok true, [])) ∧
    (getLabel m "set" = "controlplane" →
      ((∀ cm ∈ cps, (∃ s, env.machineScope cm = .ok s) ∧
          ∃ b, env.machineExists cm = .ok b) →
        (Actuator.isNodeJoin env cps m).1 = .ok (cps.any (checkTrue env))) ∧
      (∀ l1 cm l2 s, cps = l1 ++ cm :: l2 →
        (∀ m1 ∈ l1, (∃ sc, env.machineScope m1 = .ok sc) ∧
          env.machineExists m1 = .ok false) →
        env.machineScope cm = .ok s → env.machineExists cm = .ok true →
        Actuator.isNodeJoin env cps m =
          (.ok true, (l1 ++ [cm]).map Call.machineExists)) ∧
      (∀ l1 cm l2, cps = l1 ++ cm :: l2 →
        (∀ m1 ∈ l1, (∃ sc, env.machineScope m1 = .ok sc) ∧
          env.machineExists m1 = .ok false) →
        ((∃ e, env.machineScope cm = .error e) ∨
          ((∃ sc, env.machineScope cm = .ok sc) ∧
            ∃ e, env.machineExists cm = .error e)) →
        ∃ msg, (Actuator.isNodeJoin env cps m).1 = .error msg)) ∧
    (getLabel m "set" ≠ "node" → getLabel m "set" ≠ "controlplane" →
      (∃ msg, (Actuator.isNodeJoin env cps m).1 = .error msg) ∧
      (Actuator.isNodeJoin env cps m).2 = [] ∧
      ∀ c, (∃ msg, (Actuator.Create env c m).result = .fail msg) ∧
        Call.createOrGet ∉ (Actuator.Create env c m).log) := by
  refine ⟨?_, ?_, ?_⟩
  · intro h1
    simp [Actuator.isNodeJoin, h1]
  · intro h2
    have hnn : getLabel m "set" ≠ "node" := by simp [h2]
    refine ⟨?_, ?_, ?_⟩
    · intro hall
      rw [Actuator.isNodeJoin, if_neg hnn, if_pos h2]
      exact isNodeJoinLoop_all_ok env cps hall
    · intro l1 cm l2 s hsplit hpre hsc hex
      rw [Actuator.isNodeJoin, if_neg hnn, if_pos h2, hsplit]
      exact isNodeJoinLoop_stop env l1 cm l2 s hpre hsc hex
    · intro l1 cm l2 hsplit hpre herr
      rw [Actuator.isNodeJoin, if_neg hnn, if_pos h2, hsplit]
      exact isNodeJoinLoop_first_err env l1 cm l2 hpre herr
  · intro hnn hnc
    refine ⟨⟨_, by rw [Actuator.isNodeJoin, if_neg hnn, if_neg hnc]⟩,
      by rw [Actuator.isNodeJoin, if_neg hnn, if_neg hnc], ?_⟩
    intro c
    cases hsc : env.machineScope m with
    | error e =>
      refine ⟨⟨"failed to create scope: " ++ e, ?_⟩, ?_⟩ <;>
        simp [Actuator.Create, hsc]
    | ok scope =>
      cases hip : env.getIP with
      | error e =>
        refine ⟨⟨"failed to retrieve controlplane url during machine creation: "
          ++ e, ?_⟩, ?_⟩ <;>
          simp [Actuator.Create, hsc, Actuator.createBody, hip]
      | ok url =>
        cases hlm : env.listMachines with
        | error e =>
          refine ⟨⟨"failed to retrieve machines in cluster " ++ c.name ++ ": "
            ++ e, ?_⟩, ?_⟩ <;>
            simp [Actuator.Create, hsc, Actuator.createBody, hip, hlm]
        | ok ml =>
          refine ⟨⟨"failed to determine whether machine " ++ m.name ++
            " should join cluster " ++ c.name ++ ": " ++
            ("Unknown value " ++ getLabel m "set" ++ " for label set on machine "
              ++ m.name ++ ", skipping machine creation"), ?_⟩, ?_⟩ <;>
            simp [Actuator.Create, hsc, Actuator.createBody, hip, hlm,
              Actuator.isNodeJoin, hnn, hnc]

/-- C4 witness: a `node`-labelled machine is always classified as a join at a
concrete input. -/
theorem claim_C4_witness :
    Actuator.isNodeJoin envBase [mCP] mNode = (.ok true, []) :=
  (claim_C4_node_role_classifier envBase [mCP] mNode).1 rfl

/-- Reduction of `createBody` when the classifier decides a join but the
bootstrap token cannot be obtained. -/
theorem Actuator.createBody_token_err (env : Env) (c : Cluster) (m : Machine)
    (scope : ScopeData) (url : String) (ml : List Machine) (jlog : List Call)
    (e : GoError)
    (hip : env.getIP = .ok url)
    (hlm : env.listMachines = .ok ml)
    (hjoin : Actuator.isNodeJoin env (Actuator.getControlPlaneMachines ml) m =
      (.ok true, jlog))
    (htok : (Actuator.getNodeJoinToken env c url).1 = .error e) :
    Actuator.createBody env c m scope =
      (.fail ("failed to obtain token for node " ++ m.name ++
        " to join cluster " ++ c.name ++ ": " ++ e),
        scope.machineStatus, m.annotations,
        (Call.getIP :: Call.listMachines :: jlog) ++
          (Actuator.getNodeJoinToken env c url).2) := by
  simp [Actuator.createBody, hip, hlm, hjoin, htok]

/-- C6: during Create, a joining machine gets a bootstrap token with a
10-minute TTL before the create-or-get provisioning call, a token failure
aborts the verb before any provisioning, and a non-joining machine requests
no token. -/
theorem claim_C6_bootstrap_token (env : Env) (c : Cluster) (m : Machine)
    (scope : ScopeData) (url : String) (ml : List Machine)
    (hscope : env.machineScope m = .ok scope)
    (hip : env.getIP = .ok url)
    (hlm : env.listMachines = .ok ml) :
    ((Actuator.isNodeJoin env (Actuator.getControlPlaneMachines ml) m).1 =
        .ok true →
      (∀ e, (Actuator.getNodeJoinToken env c url).1 = .error e →
        (∃ msg, (Actuator.Create env c m).result = .fail msg) ∧
        Call.createOrGet ∉ (Actuator.Create env c m).log) ∧
      (∀ t, (Actuator.getNodeJoinToken env c url).1 = .ok t →
        ∃ l1 l2 l3, (Actuator.Create env c m).log =
          l1 ++ Call.newBootstrap (10 * timeMinute) ::
            (l2 ++ Call.createOrGet :: l3))) ∧
    ((Actuator.isNodeJoin env (Actuator.getControlPlaneMachines ml) m).1 =
        .ok false →
      ∀ t, Call.newBootstrap t ∉ (Actuator.Create env c m).log) := by
  constructor
  · intro hj1
    have hjoin : Actuator.isNodeJoin env (Actuator.getControlPlaneMachines ml) m =
        (.ok true, (Actuator.isNodeJoin env (Actuator.getControlPlaneMachines ml) m).2) := by
      rw [← hj1]
    constructor
    · intro e htokerr
      have hbody := Actuator.createBody_token_err env c m scope url ml _ e
        hip hlm hjoin htokerr
      constructor
      · refine ⟨"failed to obtain token for node " ++ m.name ++
          " to join cluster " ++ c.name ++ ": " ++ e, ?_⟩
        simp [Actuator.Create, hscope, hbody]
      · intro hmem
        simp [Actuator.Create, hscope, hbody] at hmem
        rcases hmem with h | h
        · exact isNodeJoin_log_no_createOrGet env _ m h
        · exact token_log_no_createOrGet env c url h
    · intro t htokok
      obtain ⟨kc, hkc⟩ := getNodeJoinToken_ok_kubeConfig env c url t htokok
      have htlog := getNodeJoinToken_ok_log env c url t htokok
      have htokpair : (if true then Actuator.getNodeJoinToken env c url
          else (.ok "", [])) =
          (.ok t, [Call.getKubeConfig, Call.buildClientConfig, Call.newCoreClient,
            Call.newBootstrap (10 * timeMinute)]) := by
        simp only [if_true]
        rw [← htokok, ← htlog]
      have hmain := Actuator.createBody_main env c m scope url ml true _ t _ kc
        hip hlm hjoin htokpair hkc
      cases hcg : env.createOrGetMachine t kc with
      | error pe =>
        refine ⟨Call.getIP :: Call.listMachines ::
          ((Actuator.isNodeJoin env (Actuator.getControlPlaneMachines ml) m).2 ++
            [Call.getKubeConfig, Call.buildClientConfig, Call.newCoreClient]),
          [Call.getKubeConfig], [Call.scopeClose], ?_⟩
        cases hdep : pe.failedDependency <;>
          simp [Actuator.Create, hscope, hmain, hcg, hdep]
      | ok i =>
        refine ⟨Call.getIP :: Call.listMachines ::
          ((Actuator.isNodeJoin env (Actuator.getControlPlaneMachines ml) m).2 ++
            [Call.getKubeConfig, Call.buildClientConfig, Call.newCoreClient]),
          [Call.getKubeConfig],
          (Actuator.reconcileLBAttachment env m i).2 ++ [Call.scopeClose], ?_⟩
        cases hlb : (Actuator.reconcileLBAttachment env m i).1 <;>
          simp [Actuator.Create, hscope, hmain, hcg, hlb]
  · intro hj0 t
    obtain ⟨jl, hjl⟩ : ∃ jl,
        Actuator.isNodeJoin env (Actuator.getControlPlaneMachines ml) m =
          (.ok false, jl) :=
      ⟨(Actuator.isNodeJoin env (Actuator.getControlPlaneMachines ml) m).2,
        by rw [← hj0]⟩
    have hnb1 : Call.newBootstrap t ∉ jl := by
      intro h
      exact isNodeJoin_log_no_newBootstrap env
        (Actuator.getControlPlaneMachines ml) m t (by rw [hjl]; exact h)
    cases hkc : env.getKubeConfig with
    | error e =>
      intro hmem
      simp [Actuator.Create, hscope, Actuator.createBody, hip, hlm, hjl, hkc]
        at hmem
      exact hnb1 hmem
    | ok kc =>
      have hmain := Actuator.createBody_main env c m scope url ml false jl "" [] kc
        hip hlm hjl rfl hkc
      intro hmem
      cases hcg : env.createOrGetMachine "" kc with
      | error pe =>
        cases hdep : pe.failedDependency <;>
          (simp [Actuator.Create, hscope, hmain, hcg, hdep] at hmem;
            exact hnb1 hmem)
      | ok i =>
        have hnb2 := lb_log_no_newBootstrap env m i t
        cases hlb : (Actuator.reconcileLBAttachment env m i).1 with
        | error e2 =>
          simp [Actuator.Create, hscope, hmain, hcg, hlb] at hmem
          rcases hmem with h | h
          · exact hnb1 h
          · exact hnb2 h
        | ok u =>
          simp [Actuator.Create, hscope, hmain, hcg, hlb] at hmem
          rcases hmem with h | h
          · exact hnb1 h
          · exact hnb2 h

/-- C6 witness: at a concrete input where the machine joins, the log shows
the 10-minute-TTL token request strictly before the provisioning call. -/
theorem claim_C6_witness :
    ∃ l1 l2 l3, (Actuator.Create envBase clDemo mNode).log =
      l1 ++ Call.newBootstrap (10 * timeMinute) ::
        (l2 ++ Call.createOrGet :: l3) :=
  ((claim_C6_bootstrap_token envBase clDemo mNode scopeWithID
    "https://cp.test:6443" [] rfl rfl rfl).1 rfl).2 "token-data" rfl

/-- C7: once scope construction succeeds, `scope.Close()` runs on every exit
path of every verb, and Status mutations made before a failure point are
still committed: when provisioning succeeded but load-balancer registration
fails, Create returns an error while the committed status already records
the new instance. -/
theorem claim_C7_scope_commit (env : Env) (c : Cluster) (m : Machine) :
    ((∃ s, env.machineScope m = .ok s) →
      Call.scopeClose ∈ (Actuator.Create env c m).log ∧
      Call.scopeClose ∈ (Actuator.Delete env c m).log ∧
      Call.scopeClose ∈ (Actuator.Update env c m).log ∧
      Call.scopeClose ∈ (Actuator.Exists env c m).log) ∧
    (∀ scope url ml tok tlog kc i e,
      env.machineScope m = .ok scope → env.getIP = .ok url →
      env.listMachines = .ok ml →
      (∃ b jlog,
        Actuator.isNodeJoin env (Actuator.getControlPlaneMachines ml) m =
          (.ok b, jlog) ∧
        (if b then Actuator.getNodeJoinToken env c url else (.ok "", [])) =
          (.ok tok, tlog)) →
      env.getKubeConfig = .ok kc →
      env.createOrGetMachine tok kc = .ok i →
      getLabel m "set" = "controlplane" →
      env.registerELB i.id = .error e →
      (∃ msg, (Actuator.Create env c m).result = .fail msg) ∧
      (Actuator.Create env c m).committed =
        some { instanceID := some i.id, instanceState := some i.state.toStr }) := by
  constructor
  · rintro ⟨s, hs⟩
    refine ⟨?_, ?_, ?_, ?_⟩
    · simp [Actuator.Create, hs]
    · simp [Actuator.Delete, hs]
    · simp [Actuator.Update, hs]
    · simp [Actuator.Exists, hs]
  · intro scope url ml tok tlog kc i e hscope hip hlm hjoin hkc hcg hcp hreg
    obtain ⟨b, jlog, hj, ht⟩ := hjoin
    have hmain := Actuator.createBody_main env c m scope url ml b jlog tok tlog kc
      hip hlm hj ht hkc
    have hlb : (Actuator.reconcileLBAttachment env m i).1 =
        .error ("could not register control plane instance " ++ i.id ++
          " with load balancer: " ++ e) := by
      simp [Actuator.reconcileLBAttachment, hcp, hreg]
    constructor
    · refine ⟨"failed to reconcile LB attachment: " ++
        ("could not register control plane instance " ++ i.id ++
          " with load balancer: " ++ e), ?_⟩
      simp [Actuator.Create, hscope, hmain, hcg, hlb]
    · simp [Actuator.Create, hscope, hmain, hcg, hlb]

/-- C7 witness: at a concrete input where ELB registration fails after a
successful provisioning, Create errors yet the committed status carries the
new instance ID and state. -/
theorem claim_C7_witness :
    (∃ msg, (Actuator.Create envELBDown clDemo mCP).result = .fail msg) ∧
    (Actuator.Create envELBDown clDemo mCP).committed =
      some { instanceID := some "i-abc", instanceState := some "running" } :=
  (claim_C7_scope_commit envELBDown clDemo mCP).2 scopeWithID
    "https://cp.test:6443" [] "" [] "kubeconfig-data" instRunning "elb down"
    rfl rfl rfl ⟨false, [], rfl, rfl⟩ rfl rfl rfl rfl

/-- The machines whose existence `createBody` checks all come from the
control-plane selection, hence carry a non-empty control-plane version. -/
theorem createBody_log_machineExists (env : Env) (c : Cluster) (m : Machine)
    (scope : ScopeData) (cm : Machine)
    (hmem : Call.machineExists cm ∈ (Actuator.createBody env c m scope).2.2.2) :
    cm.spec.versions.controlPlane ≠ "" := by
  cases hip : env.getIP with
  | error e => simp [Actuator.createBody, hip] at hmem
  | ok url =>
  cases hlm : env.listMachines with
  | error e => simp [Actuator.createBody, hip, hlm] at hmem
  | ok ml =>
  have hjoinlog : Call.machineExists cm ∈
      (Actuator.isNodeJoin env (Actuator.getControlPlaneMachines ml) m).2 →
      cm.spec.versions.controlPlane ≠ "" := by
    intro h2
    obtain ⟨cm2, hcm2, heq⟩ := isNodeJoin_log_mem env _ m _ h2
    injection heq with heq2
    subst heq2
    exact (mem_getControlPlaneMachines ml cm hcm2).2
  cases hj1 : (Actuator.isNodeJoin env (Actuator.getControlPlaneMachines ml) m).1 with
  | error e =>
    simp [Actuator.createBody, hip, hlm, hj1] at hmem
    exact hjoinlog hmem
  | ok bj =>
  cases bj with
  | false =>
    cases hkc : env.getKubeConfig with
    | error e =>
      simp [Actuator.createBody, hip, hlm, hj1, hkc] at hmem
      exact hjoinlog hmem
    | ok kc =>
      cases hcg : env.createOrGetMachine "" kc with
      | error pe =>
        cases hdep : pe.failedDependency <;>
          (simp [Actuator.createBody, hip, hlm, hj1, hkc, hcg, hdep] at hmem;
            exact hjoinlog hmem)
      | ok i =>
        have hlbno := lb_log_no_machineExists env m i cm
        cases hlb : (Actuator.reconcileLBAttachment env m i).1 with
        | error e2 =>
          simp [Actuator.createBody, hip, hlm, hj1, hkc, hcg, hlb] at hmem
          rcases hmem with h | h
          · exact hjoinlog h
          · exact absurd h hlbno
        | ok u =>
          simp [Actuator.createBody, hip, hlm, hj1, hkc, hcg, hlb] at hmem
          rcases hmem with h | h
          · exact hjoinlog h
          · exact absurd h hlbno
  | true =>
    have htokno := token_log_no_machineExists env c url cm
    cases ht1 : (Actuator.getNodeJoinToken env c url).1 with
    | error e =>
      simp [Actuator.createBody, hip, hlm, hj1, ht1] at hmem
      rcases hmem with h | h
      · exact hjoinlog h
      · exact absurd h htokno
    | ok t =>
      cases hkc : env.getKubeConfig with
      | error e =>
        simp [Actuator.createBody, hip, hlm, hj1, ht1, hkc] at hmem
        rcases hmem with h | h
        · exact hjoinlog h
        · exact absurd h htokno
      | ok kc =>
        cases hcg : env.createOrGetMachine t kc with
        | error pe =>
          cases hdep : pe.failedDependency <;>
            (simp [Actuator.createBody, hip, hlm, hj1, ht1, hkc, hcg, hdep] at hmem;
              rcases hmem with h | h;
              exacts [hjoinlog h, absurd h htokno])
        | ok i =>
          have hlbno := lb_log_no_machineExists env m i cm
          cases hlb : (Actuator.reconcileLBAttachment env m i).1 with
          | error e2 =>
            simp [Actuator.createBody, hip, hlm, hj1, ht1, hkc, hcg, hlb] at hmem
            rcases hmem with h | h | h
            · exact hjoinlog h
            · exact absurd h htokno
            · exact absurd h hlbno
          | ok u =>
            simp [Actuator.createBody, hip, hlm, hj1, ht1, hkc, hcg, hlb] at hmem
            rcases hmem with h | h | h
            · exact hjoinlog h
            · exact absurd h htokno
            · exact absurd h hlbno

/-- C10: the control-plane candidate set for the classifier is selected by a
non-empty `Spec.Versions.ControlPlane` field, not by the `set: controlplane`
label; a `controlplane`-labelled machine with an empty control-plane version
is excluded, and every existence check Create issues is on a machine with a
non-empty control-plane version. -/
theorem claim_C10_control_plane_selection :
    (∀ ml, Actuator.getControlPlaneMachines ml =
      ml.filter (fun mm => mm.spec.versions.controlPlane != "")) ∧
    (∀ ml mm, mm ∈ ml → getLabel mm "set" = "controlplane" →
      mm.spec.versions.controlPlane = "" →
      mm ∉ Actuator.getControlPlaneMachines ml) ∧
    (∀ env c m cm, Call.machineExists cm ∈ (Actuator.Create env c m).log →
      cm.spec.versions.controlPlane ≠ "") := by
  refine ⟨getControlPlaneMachines_eq_filter, ?_, ?_⟩
  · intro ml mm hmem hlabel hver hcp
    exact (mem_getControlPlaneMachines ml mm hcp).2 hver
  · intro env c m cm hmem
    cases hsc : env.machineScope m with
    | error e => simp [Actuator.Create, hsc] at hmem
    | ok scope =>
      simp [Actuator.Create, hsc] at hmem
      exact createBody_log_machineExists env c m scope cm hmem

/-- C10 witness: a `controlplane`-labelled machine with an empty
control-plane version field is excluded from the candidate set at a concrete
input. -/
theorem claim_C10_witness :
    mCPNoVersion ∉ Actuator.getControlPlaneMachines [mCPNoVersion, mCP] :=
  claim_C10_control_plane_selection.2.1 [mCPNoVersion, mCP] mCPNoVersion
    (by simp) rfl rfl
